import Mathlib

/-!
Verification of the Realtime Connection Manager
(`src/services/websocket/websocketService.ts`).

The development shallowly embeds the TypeScript source:

* `WS.Json` models the JavaScript structured values that flow through
  `JSON.stringify` / `JSON.parse`.  Numbers are modelled as `Int`: every
  frame the service itself produces carries integer timestamps, and the
  codec claims are about structured (integer-valued) payloads.  The wire
  codec (`WS.stringify`, `WS.parseValue`) follows the JSON grammar that
  `JSON.stringify` emits and `JSON.parse` accepts (integer numerals,
  string escapes, arrays, objects, whitespace tolerance, no leading
  zeros, rejection of trailing garbage and of raw control characters in
  strings).
* `WS.WSState` is the mutable state of one `WebSocketService` instance:
  every socket ever constructed with its `readyState`, the `ws` field,
  the reconnect-attempt counter, the heartbeat / reconnect timer
  bookkeeping, the `isIntentionallyClosed` flag, the chronological list
  of emitted events, and the log of `close()` calls the service issued.
* `WS.step` executes one atomic occurrence against the state: a public
  method call (`connect`, `disconnect`, `send`, `sendTyped`), a browser
  event firing one of the handlers installed by `setupEventHandlers`
  (`onopen`, `onmessage`, `onerror`, `onclose`), a pending reconnect
  `setTimeout` callback, or a heartbeat `setInterval` tick.  Handlers
  are closures over the service, so they run for the socket that fired
  them even when `this.ws` has been replaced, exactly as in the browser.
-/

namespace WS

/-! ## JavaScript structured values -/

/-- A JSON-representable JavaScript value (numbers modelled as `Int`). -/
inductive Json where
  | null : Json
  | bool (b : Bool) : Json
  | num (n : Int) : Json
  | str (s : String) : Json
  | arr (xs : List Json) : Json
  | obj (fields : List (String × Json)) : Json

/-! ## Encoding (`JSON.stringify`) -/

/-- The character of a decimal digit `n < 10`. -/
def digitChar (n : Nat) : Char := Char.ofNat (48 + n)

/-- Decimal rendering, accumulator style; the fuel only needs to exceed
the value being rendered, and `natToDigits` supplies that. -/
def natToDigitsAux : Nat → Nat → List Char → List Char
  | 0, _, acc => acc
  | fuel + 1, n, acc =>
    if n < 10 then digitChar n :: acc
    else natToDigitsAux fuel (n / 10) (digitChar (n % 10) :: acc)

/-- Decimal rendering of a natural number, most significant digit first. -/
def natToDigits (n : Nat) : List Char := natToDigitsAux (n + 1) n []

/-- Decimal rendering of an integer. -/
def intToChars (n : Int) : List Char :=
  if n < 0 then '-' :: natToDigits n.natAbs else natToDigits n.toNat

/-- Lower-case hexadecimal digit for `n < 16`. -/
def hexDigit (n : Nat) : Char :=
  if n < 10 then digitChar n else Char.ofNat (87 + n)

/-- How `JSON.stringify` renders one character inside a string literal:
quote and backslash get short escapes, the usual control characters get
their two-character escapes, other control characters get `\u00XX`, and
everything else is passed through. -/
def escapeChar (c : Char) : List Char :=
  if c = '"' then ['\\', '"']
  else if c = '\\' then ['\\', '\\']
  else if c = '\x08' then ['\\', 'b']
  else if c = '\x0c' then ['\\', 'f']
  else if c = '\n' then ['\\', 'n']
  else if c = '\r' then ['\\', 'r']
  else if c = '\t' then ['\\', 't']
  else if c.toNat < 32 then
    ['\\', 'u', '0', '0', hexDigit (c.toNat / 16), hexDigit (c.toNat % 16)]
  else [c]

/-- Escape every character of a string body. -/
def escapeString (s : List Char) : List Char := s.flatMap escapeChar

/-- A JSON string literal: quote, escaped body, quote. -/
def quoteString (s : List Char) : List Char := '"' :: (escapeString s ++ ['"'])

mutual
/-- `JSON.stringify` (no indentation, insertion-ordered keys). -/
def stringify : Json → List Char
  | .null => "null".data
  | .bool true => "true".data
  | .bool false => "false".data
  | .num n => intToChars n
  | .str s => quoteString s.data
  | .arr xs => '[' :: (stringifyItems xs ++ [']'])
  | .obj xs => '{' :: (stringifyFields xs ++ ['}'])

/-- Comma-separated renderings of array elements. -/
def stringifyItems : List Json → List Char
  | [] => []
  | [v] => stringify v
  | v :: vs => stringify v ++ ',' :: stringifyItems vs

/-- Comma-separated `"key":value` renderings of object members. -/
def stringifyFields : List (String × Json) → List Char
  | [] => []
  | [(k, v)] => quoteString k.data ++ ':' :: stringify v
  | (k, v) :: xs => quoteString k.data ++ ':' :: stringify v ++ ',' :: stringifyFields xs
end

/-! ## Decoding (`JSON.parse`) -/

/-- JSON insignificant whitespace. -/
def isWS (c : Char) : Bool :=
  c = ' ' ∨ c = '\t' ∨ c = '\n' ∨ c = '\r'

/-- Drop leading JSON whitespace. -/
def skipWS : List Char → List Char
  | [] => []
  | c :: cs => if isWS c then skipWS cs else c :: cs

/-- The value of a decimal digit character, if it is one. -/
def digitVal (c : Char) : Option Nat :=
  if 48 ≤ c.toNat ∧ c.toNat ≤ 57 then some (c.toNat - 48) else none

/-- The value of a hexadecimal digit character, if it is one. -/
def hexVal (c : Char) : Option Nat :=
  if 48 ≤ c.toNat ∧ c.toNat ≤ 57 then some (c.toNat - 48)
  else if 97 ≤ c.toNat ∧ c.toNat ≤ 102 then some (c.toNat - 87)
  else if 65 ≤ c.toNat ∧ c.toNat ≤ 70 then some (c.toNat - 55)
  else none

/-- Consume a maximal run of decimal digits, accumulating their value. -/
def parseDigits : List Char → Nat → Nat × List Char
  | [], acc => (acc, [])
  | c :: cs, acc =>
    match digitVal c with
    | some d => parseDigits cs (acc * 10 + d)
    | none => (acc, c :: cs)

/-- A JSON natural-number literal: either a lone `0`, or a digit run with
no leading zero (JSON rejects `01`). -/
def parseNat (cs : List Char) : Option (Nat × List Char) :=
  match cs with
  | [] => none
  | c :: cs1 =>
    if c = '0' then some (0, cs1)
    else if (digitVal c).isSome then some (parseDigits (c :: cs1) 0)
    else none

/-- A JSON integer literal with optional leading minus. -/
def parseNumber (cs : List Char) : Option (Int × List Char) :=
  if cs.head? = some '-' then
    (parseNat cs.tail).map (fun p => (-(p.1 : Int), p.2))
  else
    (parseNat cs).map (fun p => ((p.1 : Int), p.2))

/-- The body of a JSON string literal after the opening quote, with the
escape sequences `JSON.parse` accepts; raw control characters are
rejected.  Returns the decoded characters and the remainder after the
closing quote. -/
def parseStringBody : List Char → List Char → Option (List Char × List Char)
  | [], _ => none
  | c :: cs, acc =>
    if c = '"' then some (acc.reverse, cs)
    else if c = '\\' then
      match cs with
      | [] => none
      | e :: cs2 =>
        if e = '"' then parseStringBody cs2 ('"' :: acc)
        else if e = '\\' then parseStringBody cs2 ('\\' :: acc)
        else if e = '/' then parseStringBody cs2 ('/' :: acc)
        else if e = 'b' then parseStringBody cs2 ('\x08' :: acc)
        else if e = 'f' then parseStringBody cs2 ('\x0c' :: acc)
        else if e = 'n' then parseStringBody cs2 ('\n' :: acc)
        else if e = 'r' then parseStringBody cs2 ('\r' :: acc)
        else if e = 't' then parseStringBody cs2 ('\t' :: acc)
        else if e = 'u' then
          match cs2 with
          | h1 :: h2 :: h3 :: h4 :: cs3 =>
            match hexVal h1, hexVal h2, hexVal h3, hexVal h4 with
            | some a, some b, some c1, some d =>
              parseStringBody cs3 (Char.ofNat (4096 * a + 256 * b + 16 * c1 + d) :: acc)
            | _, _, _, _ => none
          | _ => none
        else none
    else if c.toNat < 32 then none
    else parseStringBody cs (c :: acc)

mutual
/-- Fueled recursive-descent JSON value parser.  The fuel only bounds the
nesting of recursive calls; `decode` supplies more fuel than any input
can consume, so the fuel never cuts a parse short. -/
def parseValue : Nat → List Char → Option (Json × List Char)
  | 0, _ => none
  | f + 1, cs0 =>
    match skipWS cs0 with
    | [] => none
    | c :: cs =>
      if c = 'n' then
        if cs.take 3 = ['u', 'l', 'l'] then some (.null, cs.drop 3) else none
      else if c = 't' then
        if cs.take 3 = ['r', 'u', 'e'] then some (.bool true, cs.drop 3) else none
      else if c = 'f' then
        if cs.take 4 = ['a', 'l', 's', 'e'] then some (.bool false, cs.drop 4) else none
      else if c = '"' then
        (parseStringBody cs []).map (fun p => (.str (String.mk p.1), p.2))
      else if c = '[' then
        let r := skipWS cs
        if r.head? = some ']' then some (.arr [], r.tail)
        else (parseItems f r).map (fun p => (.arr p.1, p.2))
      else if c = '{' then
        let r := skipWS cs
        if r.head? = some '}' then some (.obj [], r.tail)
        else (parseFields f r).map (fun p => (.obj p.1, p.2))
      else
        (parseNumber (c :: cs)).map (fun p => (.num p.1, p.2))

/-- One or more comma-separated array elements followed by `]`. -/
def parseItems : Nat → List Char → Option (List Json × List Char)
  | 0, _ => none
  | f + 1, cs =>
    (parseValue f cs).bind fun p =>
      let r := skipWS p.2
      if r.head? = some ',' then
        (parseItems f r.tail).map (fun q => (p.1 :: q.1, q.2))
      else if r.head? = some ']' then some ([p.1], r.tail)
      else none

/-- One or more comma-separated `"key":value` members followed by `}`. -/
def parseFields : Nat → List Char → Option (List (String × Json) × List Char)
  | 0, _ => none
  | f + 1, cs =>
    match skipWS cs with
    | [] => none
    | c :: cs1 =>
      if c = '"' then
        (parseStringBody cs1 []).bind fun pk =>
          let r1 := skipWS pk.2
          if r1.head? = some ':' then
            (parseValue f r1.tail).bind fun pv =>
              let r2 := skipWS pv.2
              if r2.head? = some ',' then
                (parseFields f r2.tail).map
                  (fun q => ((String.mk pk.1, pv.1) :: q.1, q.2))
              else if r2.head? = some '}' then
                some ([(String.mk pk.1, pv.1)], r2.tail)
              else none
          else none
      else none
end

/-- `JSON.parse`: parse one value, allow trailing whitespace only. -/
def decode (s : String) : Option Json :=
  match parseValue (s.data.length + 1) s.data with
  | some (v, rest) => if skipWS rest = [] then some v else none
  | none => none

/-- A remainder at which a numeral parse is guaranteed to stop: empty, or
headed by a non-digit.  Every remainder the round-trip proof feeds a
numeral (`,`, `]`, `\x7d`, end of input) satisfies it. -/
def numStop : List Char → Bool
  | [] => true
  | c :: _ => (digitVal c).isNone

/-! ## The wire messages (`WebSocketMessage`) -/

/-- The `WebSocketMessage` interface: `type`, `payload` (opaque
structured value), `timestamp`. -/
structure WebSocketMessage where
  type : String
  payload : Json
  timestamp : Int

/-- The message object literal as the JavaScript value handed to
`JSON.stringify` (insertion order: `type`, `payload`, `timestamp`). -/
def messageJson (m : WebSocketMessage) : Json :=
  .obj [("type", .str m.type), ("payload", m.payload), ("timestamp", .num m.timestamp)]

/-- `JSON.stringify(message)` as performed in `send`. -/
def encodeMessage (m : WebSocketMessage) : String :=
  String.mk (stringify (messageJson m))

/-- Right-biased member lookup: `JSON.parse` keeps the last occurrence of
a duplicated key, so property access reads from the right. -/
def lookupField : List (String × Json) → String → Option Json
  | [], _ => none
  | (k1, v1) :: rest, key =>
    match lookupField rest key with
    | some r => some r
    | none => if k1 = key then some v1 else none

/-- JavaScript property access `x.k` on a parsed JSON value: `none` when
the access throws (`x` is `null`), otherwise `some` the property value,
with `some none` for `undefined` (missing key or non-object). -/
def propAccess : Json → String → Option (Option Json)
  | .null, _ => none
  | .obj fs, k => some (lookupField fs k)
  | _, _ => some none

mutual
/-- JavaScript string conversion of a parsed JSON value, as a template
literal performs it (`String(v)`). -/
def jsToStringChars : Json → List Char
  | .null => "null".data
  | .bool true => "true".data
  | .bool false => "false".data
  | .num n => intToChars n
  | .str s => s.data
  | .arr xs => jsElems xs
  | .obj _ => "[object Object]".data

/-- `Array.prototype.toString`: elements joined with commas, `null`
elements rendered empty. -/
def jsElems : List Json → List Char
  | [] => []
  | [v] => (match v with | .null => [] | _ => jsToStringChars v)
  | v :: vs => (match v with | .null => [] | _ => jsToStringChars v) ++ ',' :: jsElems vs
end

/-- String conversion of a parsed JSON value. -/
def jsToString (v : Json) : String := String.mk (jsToStringChars v)

/-- A template-literal fragment for a value that may be `undefined`. -/
def templateStr : Option Json → String
  | none => "undefined"
  | some v => jsToString v

/-! ## The service (`WebSocketService`) -/

/-- Configuration as the constructor accepts it (`WebSocketConfig`,
optional policy fields). -/
structure WebSocketConfigIn where
  url : String
  reconnectInterval : Option Nat := none
  maxReconnectAttempts : Option Nat := none
  heartbeatInterval : Option Nat := none

/-- Configuration after the constructor spread has applied the defaults
`reconnectInterval = 5000`, `maxReconnectAttempts = 10`,
`heartbeatInterval = 30000`. -/
structure WSConfig where
  url : String
  reconnectInterval : Nat
  maxReconnectAttempts : Nat
  heartbeatInterval : Nat

/-- The constructor body: defaults overridden by the supplied fields. -/
def applyDefaults (c : WebSocketConfigIn) : WSConfig :=
  { url := c.url
    reconnectInterval := c.reconnectInterval.getD 5000
    maxReconnectAttempts := c.maxReconnectAttempts.getD 10
    heartbeatInterval := c.heartbeatInterval.getD 30000 }

/-- Browser `WebSocket.CONNECTING`. -/
def WS_CONNECTING : Nat := 0
/-- Browser `WebSocket.OPEN`. -/
def WS_OPEN : Nat := 1
/-- Browser `WebSocket.CLOSING`. -/
def WS_CLOSING : Nat := 2
/-- Browser `WebSocket.CLOSED`. -/
def WS_CLOSED : Nat := 3

/-- The errors the service emits on its `error` channel. -/
inductive WSError where
  | notConnected
  | parseError
  | typeError
  | transportError

/-- One `this.emit(...)` occurrence.  `typedMessage` carries the full
computed event name (`"message:" ++` the rendered `type` field). -/
inductive Emit where
  | connected
  | disconnected (code : Nat) (reason : String)
  | message (data : Json)
  | typedMessage (name : String) (payload : Option Json)
  | messageSent (m : WebSocketMessage)
  | error (e : WSError)

/-- The mutable state of one `WebSocketService`:

* `sockets` — the `readyState` of every `WebSocket` this service ever
  constructed, indexed by creation order.  Handlers installed by
  `setupEventHandlers` are closures over the service, so transport
  events of *any* non-closed socket in this list run against the
  current state, even after `this.ws` was replaced.
* `ws` — the index `this.ws` refers to (`none` for `null`).
* `reconnectAttempts`, `isIntentionallyClosed` — the fields of the same
  names.
* `heartbeatTimer` — whether the `setInterval` heartbeat is live.
* `reconnectStored` — whether `this.reconnectTimer` holds a handle.
* `reconnectPending` — how many reconnect `setTimeout` callbacks are
  still pending (`scheduleReconnect` overwrites the stored handle
  without clearing it, so more than the stored one can be pending).
* `events` — chronological log of every `this.emit`.
* `closeCalls` — log of `ws.close()` calls the service issued, with the
  reason argument passed (the source always calls `close()` bare, so
  the recorded reason argument is `none`). -/
structure WSState where
  sockets : List Nat
  ws : Option Nat
  reconnectAttempts : Nat
  heartbeatTimer : Bool
  reconnectStored : Bool
  reconnectPending : Nat
  isIntentionallyClosed : Bool
  events : List Emit
  closeCalls : List (Nat × Option String)

/-- The field initializers of the class. -/
def initState : WSState :=
  { sockets := [], ws := none, reconnectAttempts := 0, heartbeatTimer := false,
    reconnectStored := false, reconnectPending := 0, isIntentionallyClosed := false,
    events := [], closeCalls := [] }

/-- Append one emitted event. -/
def emitE (s : WSState) (e : Emit) : WSState := { s with events := s.events ++ [e] }

/-- `this.ws?.readyState`. -/
def wsReadyState (s : WSState) : Option Nat :=
  s.ws.map (fun id => s.sockets.getD id WS_CLOSED)

/-- `getState(): this.ws?.readyState ?? WebSocket.CLOSED`. -/
def getState (s : WSState) : Nat := (wsReadyState s).getD WS_CLOSED

/-- `isConnected(): this.ws?.readyState === WebSocket.OPEN`. -/
def isConnected (s : WSState) : Bool := wsReadyState s == some WS_OPEN

/-- `send(message)`: not open — emit an `error` and return; open —
`this.ws.send(JSON.stringify(message))` then emit `messageSent`. -/
def send (s : WSState) (m : WebSocketMessage) : WSState :=
  if wsReadyState s ≠ some WS_OPEN then emitE s (.error .notConnected)
  else emitE s (.messageSent m)

/-- `sendTyped(type, payload)`: wrap with `Date.now()` and `send`. -/
def sendTyped (s : WSState) (t : String) (p : Json) (now : Int) : WSState :=
  send s { type := t, payload := p, timestamp := now }

/-- `stopHeartbeat()`. -/
def stopHeartbeat (s : WSState) : WSState :=
  if s.heartbeatTimer then { s with heartbeatTimer := false } else s

/-- `startHeartbeat()`: clear any previous interval, then install one. -/
def startHeartbeat (s : WSState) : WSState :=
  { stopHeartbeat s with heartbeatTimer := true }

/-- `scheduleReconnect()`: bump the attempt counter and store a fresh
`setTimeout` handle (overwriting, not clearing, any previous one). -/
def scheduleReconnect (s : WSState) : WSState :=
  { s with reconnectAttempts := s.reconnectAttempts + 1,
           reconnectPending := s.reconnectPending + 1,
           reconnectStored := true }

/-- `connect()`: a no-op warning when the current socket is `OPEN`;
otherwise construct a fresh `WebSocket` (`createOk` says whether the
constructor throws) and install handlers, or on a constructor throw
fall into `scheduleReconnect`. -/
def connect (s : WSState) (createOk : Bool) : WSState :=
  if wsReadyState s == some WS_OPEN then s
  else if createOk then
    { s with sockets := s.sockets ++ [WS_CONNECTING], ws := some s.sockets.length }
  else scheduleReconnect s

/-- Browser `ws.close()`: a `CONNECTING` or `OPEN` socket moves to
`CLOSING` (the close event fires later); otherwise a no-op. -/
def closeTransition (r : Nat) : Nat :=
  if r = WS_CONNECTING ∨ r = WS_OPEN then WS_CLOSING else r

/-- The `clearTimeout(this.reconnectTimer)` statement of `cleanup`:
cancel the stored handle when one exists (if it already fired this is a
no-op, which the saturating decrement models), and null the field. -/
def clearReconnect (s : WSState) : WSState :=
  if s.reconnectStored then
    { s with reconnectStored := false, reconnectPending := s.reconnectPending - 1 }
  else s

/-- The `this.ws.close(); this.ws = null` statement of `cleanup`. -/
def closeAndDropSocket (s : WSState) : WSState :=
  match s.ws with
  | some id =>
    { s with sockets := s.sockets.set id (closeTransition (s.sockets.getD id WS_CLOSED)),
             closeCalls := s.closeCalls ++ [(id, none)],
             ws := none }
  | none => s

/-- `cleanup()`: stop the heartbeat, clear the stored reconnect handle,
close and drop the socket. -/
def cleanup (s : WSState) : WSState :=
  closeAndDropSocket (clearReconnect (stopHeartbeat s))

/-- `disconnect()`: latch the shutdown flag, then `cleanup()`. -/
def disconnect (s : WSState) : WSState :=
  cleanup { s with isIntentionallyClosed := true }

/-- The `onopen` handler: reset the attempt counter, emit `connected`,
start the heartbeat. -/
def onopen (s : WSState) : WSState :=
  startHeartbeat (emitE { s with reconnectAttempts := 0 } .connected)

/-- The `onclose` handler: emit `disconnected`, stop the heartbeat, and
schedule a reconnect unless intentionally closed or out of budget. -/
def onclose (cfg : WSConfig) (code : Nat) (reason : String) (s : WSState) : WSState :=
  let s1 := stopHeartbeat (emitE s (.disconnected code reason))
  if ¬s1.isIntentionallyClosed ∧ s1.reconnectAttempts < cfg.maxReconnectAttempts then
    scheduleReconnect s1
  else s1

/-- The `onmessage` handler: `JSON.parse` the data inside `try`; emit
`message` with the parsed value, then emit the type-scoped event — the
template literal `message.type` access throws on a `null` message,
landing in the `catch` which emits `error`. -/
def onmessage (s : WSState) (data : String) : WSState :=
  match decode data with
  | none => emitE s (.error .parseError)
  | some j =>
    let s1 := emitE s (.message j)
    match propAccess j "type" with
    | none => emitE s1 (.error .typeError)
    | some t =>
      match propAccess j "payload" with
      | none => emitE s1 (.error .typeError)
      | some p => emitE s1 (.typedMessage ("message:" ++ templateStr t) p)

/-- The `onerror` handler: emit `error`. -/
def onerror (s : WSState) : WSState := emitE s (.error .transportError)

/-- One atomic occurrence processed against a service: a public method
call, a transport event running the handlers of the socket that fired
it, a pending reconnect `setTimeout` callback, or a heartbeat tick. -/
inductive Action where
  | connect (createOk : Bool)
  | disconnect
  | send (m : WebSocketMessage)
  | sendTyped (t : String) (p : Json) (now : Int)
  | socketOpened (id : Nat)
  | socketClosed (id : Nat) (code : Nat) (reason : String)
  | socketMessage (id : Nat) (data : String)
  | socketError (id : Nat)
  | reconnectFired (createOk : Bool)
  | heartbeatTick (now : Int)

/-- Execute one occurrence; `none` when it is not enabled (a transport
event of a socket in the wrong state, a tick of a cancelled timer). -/
def step (cfg : WSConfig) (a : Action) (s : WSState) : Option WSState :=
  match a with
  | .connect ok => some (connect s ok)
  | .disconnect => some (disconnect s)
  | .send m => some (send s m)
  | .sendTyped t p now => some (sendTyped s t p now)
  | .socketOpened id =>
    if s.sockets.getD id WS_CLOSED = WS_CONNECTING then
      some (onopen { s with sockets := s.sockets.set id WS_OPEN })
    else none
  | .socketClosed id code reason =>
    if s.sockets.getD id WS_CLOSED ≠ WS_CLOSED ∧ id < s.sockets.length then
      some (onclose cfg code reason { s with sockets := s.sockets.set id WS_CLOSED })
    else none
  | .socketMessage id data =>
    if s.sockets.getD id WS_CLOSED = WS_OPEN then some (onmessage s data) else none
  | .socketError id =>
    if id < s.sockets.length then some (onerror s) else none
  | .reconnectFired ok =>
    if s.reconnectPending > 0 then
      let s1 := { s with reconnectPending := s.reconnectPending - 1 }
      some (if s1.isIntentionallyClosed then s1 else connect s1 ok)
    else none
  | .heartbeatTick now =>
    if s.heartbeatTimer then
      some (if isConnected s then
        sendTyped s "heartbeat" (.obj [("timestamp", .num now)]) now
      else s)
    else none

/-- Run a list of occurrences from a state. -/
def runActions (cfg : WSConfig) : List Action → WSState → Option WSState
  | [], s => some s
  | a :: rest, s =>
    match step cfg a s with
    | some s1 => runActions cfg rest s1
    | none => none

/-- The events one step appended. -/
def newEvents (s s1 : WSState) : List Emit := s1.events.drop s.events.length

/-! ## The event dispatcher (`EventEmitter`) -/

/-- The `EventEmitter` channel an emit is delivered on. -/
def Emit.name : Emit → String
  | .connected => "connected"
  | .disconnected _ _ => "disconnected"
  | .message _ => "message"
  | .typedMessage n _ => n
  | .messageSent _ => "messageSent"
  | .error _ => "error"

/-- Handlers registered for an event name, in subscription order. -/
def handlersFor (subs : List (String × Nat)) (n : String) : List Nat :=
  (subs.filter (fun p => p.1 == n)).map (fun p => p.2)

/-- The handler-invocation sequence for a chronological list of emits:
each emit synchronously invokes its subscribers in subscription
order before the next emit is processed. -/
def invocations (subs : List (String × Nat)) (es : List Emit) : List (Nat × Emit) :=
  es.flatMap (fun e => (handlersFor subs e.name).map (fun h => (h, e)))

/-! ## The module-level singleton -/

/-- One `WebSocketService` value: the applied configuration and the
state the constructor initialises. -/
structure WebSocketService where
  config : WSConfig
  state : WSState

/-- `new WebSocketService(config)`. -/
def mkService (c : WebSocketConfigIn) : WebSocketService :=
  { config := applyDefaults c, state := initState }

/-- `initializeWebSocket`: construct only when the module-level
`instance` is unset; returns the instance and the updated variable. -/
def initializeWebSocket (c : WebSocketConfigIn) (inst : Option WebSocketService) :
    WebSocketService × Option WebSocketService :=
  match inst with
  | none => (mkService c, some (mkService c))
  | some sv => (sv, some sv)

/-- `getWebSocketService`: throws when not initialised. -/
def getWebSocketService (inst : Option WebSocketService) :
    Except String WebSocketService :=
  match inst with
  | none => .error "WebSocket service not initialized"
  | some sv => .ok sv

/-! ## Observation helpers -/

/-- Is this a `disconnected` emit? -/
def isDisconnectedEvent : Emit → Bool
  | .disconnected _ _ => true
  | _ => false

/-- Is this an `error` emit? -/
def isErrorEvent : Emit → Bool
  | .error _ => true
  | _ => false

/-- Is this a `connected` emit? -/
def isConnectedEvent : Emit → Bool
  | .connected => true
  | _ => false

/-- Is this a `messageSent` emit (a frame actually written to the
transport)? -/
def isSentEvent : Emit → Bool
  | .messageSent _ => true
  | _ => false

/-- How many events of a kind were emitted. -/
def countEvents (p : Emit → Bool) (es : List Emit) : Nat := (es.filter p).length

/-- How many sockets of this service are live (connecting or open). -/
def liveCount (s : WSState) : Nat :=
  (s.sockets.filter (fun r => r == WS_CONNECTING || r == WS_OPEN)).length

/-! ## Concrete fixtures for witnesses and counterexamples -/

/-- A policy with the constructor defaults. -/
def cfgD : WSConfig := applyDefaults { url := "ws://example" }

/-- A policy with `maxReconnectAttempts = 1`. -/
def cfg1 : WSConfig :=
  { url := "ws://example", reconnectInterval := 5000,
    maxReconnectAttempts := 1, heartbeatInterval := 30000 }

/-- The state after `connect()` and the transport opening the socket:
one open socket, heartbeat installed, one `connected` event. -/
def openState : WSState :=
  { sockets := [WS_OPEN], ws := some 0, reconnectAttempts := 0, heartbeatTimer := true,
    reconnectStored := false, reconnectPending := 0, isIntentionallyClosed := false,
    events := [.connected], closeCalls := [] }

/-- The state after calling `connect()` twice (the second call orphans
the first, still-connecting socket) and the orphan then opening: its
`onopen` closure started the heartbeat although `this.ws` points at a
socket that is still `CONNECTING`. -/
def orphanState : WSState :=
  { sockets := [WS_OPEN, WS_CONNECTING], ws := some 1, reconnectAttempts := 0,
    heartbeatTimer := true, reconnectStored := false, reconnectPending := 0,
    isIntentionallyClosed := false, events := [.connected], closeCalls := [] }

/-- Under `cfg1`: the first socket failed (one `disconnected`), the
reconnect timer fired and built a second socket, and the attempt budget
of 1 is now used up. -/
def exhaustedState : WSState :=
  { sockets := [WS_CLOSED, WS_CONNECTING], ws := some 1, reconnectAttempts := 1,
    heartbeatTimer := false, reconnectStored := true, reconnectPending := 0,
    isIntentionallyClosed := false, events := [.disconnected 1006 ""], closeCalls := [] }

/-- `exhaustedState` after its second socket also closed: inert, and no
`error` event was ever emitted. -/
def exhaustedStateAfter : WSState :=
  { sockets := [WS_CLOSED, WS_CLOSED], ws := some 1, reconnectAttempts := 1,
    heartbeatTimer := false, reconnectStored := true, reconnectPending := 0,
    isIntentionallyClosed := false,
    events := [.disconnected 1006 "", .disconnected 1006 ""], closeCalls := [] }

/-- A stopped service that still has a leaked reconnect timeout pending
(reached by a failed connect overwriting the stored handle before
`stop`). -/
def stoppedPendingState : WSState :=
  { sockets := [WS_CLOSED], ws := none, reconnectAttempts := 2, heartbeatTimer := false,
    reconnectStored := false, reconnectPending := 1, isIntentionallyClosed := true,
    events := [.disconnected 1006 ""], closeCalls := [(0, none)] }

/-- A throwaway frame. -/
def msg0 : WebSocketMessage := { type := "x", payload := .null, timestamp := 0 }

/-! ## Codec facts -/

theorem digitVal_digitChar {d : Nat} (h : d < 10) : digitVal (digitChar d) = some d := by
  interval_cases d <;> rfl

theorem digitVal_isSome_bounds {c : Char} (h : (digitVal c).isSome) :
    48 ≤ c.toNat ∧ c.toNat ≤ 57 := by
  by_cases hb : 48 ≤ c.toNat ∧ c.toNat ≤ 57
  · exact hb
  · simp [digitVal, hb] at h

theorem digit_ne {c : Char} (h : (digitVal c).isSome) (d : Char)
    (hd : d.toNat < 48 ∨ 57 < d.toNat) : c ≠ d := by
  intro he
  have hb := digitVal_isSome_bounds h
  rw [he] at hb
  omega

theorem digit_not_ws {c : Char} (h : (digitVal c).isSome) : isWS c = false := by
  have hb := digitVal_isSome_bounds h
  have h1 : c ≠ ' ' := digit_ne h _ (by decide)
  have h2 : c ≠ '\t' := digit_ne h _ (by decide)
  have h3 : c ≠ '\n' := digit_ne h _ (by decide)
  have h4 : c ≠ '\r' := digit_ne h _ (by decide)
  simp [isWS, h1, h2, h3, h4]

theorem parseDigits_stop {cs : List Char} (h : numStop cs) (acc : Nat) :
    parseDigits cs acc = (acc, cs) := by
  cases cs with
  | nil => rfl
  | cons c cs1 =>
    simp only [numStop, Option.isNone_iff_eq_none] at h
    simp [parseDigits, h]

/-- The decimal rendering is a non-empty digit run without a leading zero
(unless the value is zero), and `parseDigits` reads it back. -/
theorem natToDigitsAux_spec :
    ∀ (fuel n : Nat) (acc : List Char), n < fuel →
    ∃ ds : List Char, natToDigitsAux fuel n acc = ds ++ acc ∧ ds ≠ [] ∧
      (∀ c ∈ ds, (digitVal c).isSome) ∧
      (0 < n → ds.head? ≠ some '0') ∧
      (∀ rest acc2, parseDigits (ds ++ rest) acc2 =
        parseDigits rest (acc2 * 10 ^ ds.length + n)) := by
  intro fuel
  induction fuel with
  | zero => intro n acc h; omega
  | succ fuel ih =>
    intro n acc hn
    rw [natToDigitsAux]
    by_cases h10 : n < 10
    · rw [if_pos h10]
      refine ⟨[digitChar n], rfl, by simp, ?_, ?_, ?_⟩
      · intro c hc
        rw [List.mem_singleton] at hc
        rw [hc, digitVal_digitChar h10]
        rfl
      · intro hpos
        interval_cases n <;> simp_all <;> decide
      · intro rest acc2
        simp [parseDigits, digitVal_digitChar h10]
    · rw [if_neg h10]
      obtain ⟨ds, hEq, hne, hdig, hzero, hval⟩ :=
        ih (n / 10) (digitChar (n % 10) :: acc) (by omega)
      refine ⟨ds ++ [digitChar (n % 10)],
        by rw [hEq, List.append_assoc, List.singleton_append], by simp [hne], ?_, ?_, ?_⟩
      · intro c hc
        rcases List.mem_append.mp hc with hc | hc
        · exact hdig c hc
        · rw [List.mem_singleton] at hc
          rw [hc, digitVal_digitChar (Nat.mod_lt _ (by omega))]
          rfl
      · intro _
        cases ds with
        | nil => exact absurd rfl hne
        | cons d ds1 =>
          simpa using hzero (by omega)
      · intro rest acc2
        rw [List.append_assoc, List.singleton_append, hval, parseDigits,
          digitVal_digitChar (Nat.mod_lt _ (by omega))]
        have harith : (acc2 * 10 ^ ds.length + n / 10) * 10 + n % 10 =
            acc2 * 10 ^ (ds ++ [digitChar (n % 10)]).length + n := by
          rw [List.length_append, List.length_singleton, pow_succ]
          have := Nat.div_add_mod n 10
          ring_nf
          omega
        exact congrArg (parseDigits rest) harith

theorem natToDigits_spec (n : Nat) :
    (natToDigits n ≠ []) ∧
    (∀ c ∈ natToDigits n, (digitVal c).isSome) ∧
    (0 < n → (natToDigits n).head? ≠ some '0') ∧
    (∀ rest acc2, parseDigits (natToDigits n ++ rest) acc2 =
      parseDigits rest (acc2 * 10 ^ (natToDigits n).length + n)) := by
  obtain ⟨ds, hEq, hne, hdig, hzero, hval⟩ :=
    natToDigitsAux_spec (n + 1) n [] (by omega)
  rw [natToDigits, hEq, List.append_nil]
  exact ⟨hne, hdig, hzero, hval⟩

theorem parseNat_natToDigits (n : Nat) {rest : List Char} (h : numStop rest) :
    parseNat (natToDigits n ++ rest) = some (n, rest) := by
  obtain ⟨hne, hdig, hzero, hval⟩ := natToDigits_spec n
  obtain ⟨c, cs, hEq⟩ : ∃ c cs, natToDigits n = c :: cs := by
    cases hcs : natToDigits n with
    | nil => exact absurd hcs hne
    | cons c cs => exact ⟨c, cs, rfl⟩
  have hcdig : (digitVal c).isSome := hdig c (by rw [hEq]; exact List.mem_cons_self ..)
  by_cases h0 : n = 0
  · subst h0
    have : natToDigits 0 = ['0'] := rfl
    rw [this, List.singleton_append, parseNat, if_pos rfl]
  · rw [hEq, List.cons_append, parseNat]
    rw [if_neg ?hz, if_pos hcdig]
    case hz =>
      intro hc
      exact hzero (by omega) (by rw [hEq, hc]; rfl)
    rw [← List.cons_append, ← hEq, hval rest 0, parseDigits_stop h]
    simp

theorem parseNumber_intToChars (n : Int) {rest : List Char} (h : numStop rest) :
    parseNumber (intToChars n ++ rest) = some (n, rest) := by
  by_cases hn : n < 0
  · rw [intToChars, if_pos hn, List.cons_append, parseNumber]
    rw [if_pos (by rw [List.head?_cons])]
    rw [List.tail_cons, parseNat_natToDigits _ h]
    simp only [Option.map_some']
    have : -((n.natAbs : Nat) : Int) = n := by omega
    rw [this]
  · rw [intToChars, if_neg hn]
    obtain ⟨hne, hdig, _, _⟩ := natToDigits_spec n.toNat
    obtain ⟨c, cs, hEq⟩ : ∃ c cs, natToDigits n.toNat = c :: cs := by
      cases hcs : natToDigits n.toNat with
      | nil => exact absurd hcs hne
      | cons c cs => exact ⟨c, cs, rfl⟩
    have hcdig : (digitVal c).isSome := hdig c (by rw [hEq]; exact List.mem_cons_self ..)
    rw [parseNumber, if_neg ?hm]
    case hm =>
      rw [hEq, List.cons_append, List.head?_cons]
      intro hc
      exact digit_ne hcdig '-' (by decide) (by injection hc)
    rw [parseNat_natToDigits _ h]
    simp only [Option.map_some']
    have : ((n.toNat : Nat) : Int) = n := by omega
    rw [this]

theorem hexVal_hexDigit {n : Nat} (h : n < 16) : hexVal (hexDigit n) = some n := by
  interval_cases n <;> rfl

theorem parseStringBody_quote (X acc : List Char) :
    parseStringBody ('"' :: X) acc = some (acc.reverse, X) := by
  rw [parseStringBody.eq_def]
  exact rfl

theorem parseStringBody_esc_quote (X acc : List Char) :
    parseStringBody ('\\' :: '"' :: X) acc = parseStringBody X ('"' :: acc) := by
  rw [parseStringBody.eq_def]
  exact rfl

theorem parseStringBody_esc_backslash (X acc : List Char) :
    parseStringBody ('\\' :: '\\' :: X) acc = parseStringBody X ('\\' :: acc) := by
  rw [parseStringBody.eq_def]
  exact rfl

theorem parseStringBody_esc_b (X acc : List Char) :
    parseStringBody ('\\' :: 'b' :: X) acc = parseStringBody X ('\x08' :: acc) := by
  rw [parseStringBody.eq_def]
  exact rfl

theorem parseStringBody_esc_f (X acc : List Char) :
    parseStringBody ('\\' :: 'f' :: X) acc = parseStringBody X ('\x0c' :: acc) := by
  rw [parseStringBody.eq_def]
  exact rfl

theorem parseStringBody_esc_n (X acc : List Char) :
    parseStringBody ('\\' :: 'n' :: X) acc = parseStringBody X ('\n' :: acc) := by
  rw [parseStringBody.eq_def]
  exact rfl

theorem parseStringBody_esc_r (X acc : List Char) :
    parseStringBody ('\\' :: 'r' :: X) acc = parseStringBody X ('\r' :: acc) := by
  rw [parseStringBody.eq_def]
  exact rfl

theorem parseStringBody_esc_t (X acc : List Char) :
    parseStringBody ('\\' :: 't' :: X) acc = parseStringBody X ('\t' :: acc) := by
  rw [parseStringBody.eq_def]
  exact rfl

theorem parseStringBody_u (X acc : List Char) (a1 a2 a3 a4 : Char) (v1 v2 v3 v4 : Nat)
    (hv1 : hexVal a1 = some v1) (hv2 : hexVal a2 = some v2)
    (hv3 : hexVal a3 = some v3) (hv4 : hexVal a4 = some v4) :
    parseStringBody ('\\' :: 'u' :: a1 :: a2 :: a3 :: a4 :: X) acc =
      parseStringBody X (Char.ofNat (4096 * v1 + 256 * v2 + 16 * v3 + v4) :: acc) := by
  rw [parseStringBody.eq_def]
  simp only [hv1, hv2, hv3, hv4]
  exact rfl

theorem parseStringBody_plain (X acc : List Char) (c : Char)
    (h1 : ¬c = '"') (h2 : ¬c = '\\') (h8 : ¬c.toNat < 32) :
    parseStringBody (c :: X) acc = parseStringBody X (c :: acc) := by
  rw [parseStringBody.eq_def]
  split
  next heq => simp at heq
  next c1 cs1 acc1 heq =>
    injection heq with hc hX
    subst hc
    subst hX
    simp only [if_neg h1, if_neg h2, if_neg h8]

/-- Reading back an escaped string body: the parser undoes `escapeChar`
character by character and stops at the closing quote. -/
theorem parseStringBody_escape (s : List Char) :
    ∀ (acc rest : List Char),
    parseStringBody (escapeString s ++ '"' :: rest) acc = some (acc.reverse ++ s, rest) := by
  induction s with
  | nil =>
    intro acc rest
    rw [show escapeString [] = [] from rfl, List.nil_append, parseStringBody_quote]
    simp
  | cons c s ih =>
    intro acc rest
    rw [show escapeString (c :: s) = escapeChar c ++ escapeString s from rfl,
      List.append_assoc, escapeChar]
    split_ifs with h1 h2 h3 h4 h5 h6 h7 h8
    · subst h1
      rw [show (['\\', '"'] : List Char) ++ (escapeString s ++ '"' :: rest) =
        '\\' :: '"' :: (escapeString s ++ '"' :: rest) from rfl]
      rw [parseStringBody_esc_quote, ih]
      simp
    · subst h2
      rw [show (['\\', '\\'] : List Char) ++ (escapeString s ++ '"' :: rest) =
        '\\' :: '\\' :: (escapeString s ++ '"' :: rest) from rfl]
      rw [parseStringBody_esc_backslash, ih]
      simp
    · subst h3
      rw [show (['\\', 'b'] : List Char) ++ (escapeString s ++ '"' :: rest) =
        '\\' :: 'b' :: (escapeString s ++ '"' :: rest) from rfl]
      rw [parseStringBody_esc_b, ih]
      simp
    · subst h4
      rw [show (['\\', 'f'] : List Char) ++ (escapeString s ++ '"' :: rest) =
        '\\' :: 'f' :: (escapeString s ++ '"' :: rest) from rfl]
      rw [parseStringBody_esc_f, ih]
      simp
    · subst h5
      rw [show (['\\', 'n'] : List Char) ++ (escapeString s ++ '"' :: rest) =
        '\\' :: 'n' :: (escapeString s ++ '"' :: rest) from rfl]
      rw [parseStringBody_esc_n, ih]
      simp
    · subst h6
      rw [show (['\\', 'r'] : List Char) ++ (escapeString s ++ '"' :: rest) =
        '\\' :: 'r' :: (escapeString s ++ '"' :: rest) from rfl]
      rw [parseStringBody_esc_r, ih]
      simp
    · subst h7
      rw [show (['\\', 't'] : List Char) ++ (escapeString s ++ '"' :: rest) =
        '\\' :: 't' :: (escapeString s ++ '"' :: rest) from rfl]
      rw [parseStringBody_esc_t, ih]
      simp
    · rw [show ('\\' :: 'u' :: '0' :: '0' :: hexDigit (c.toNat / 16) ::
          hexDigit (c.toNat % 16) :: []) ++ (escapeString s ++ '"' :: rest) =
        '\\' :: 'u' :: '0' :: '0' :: hexDigit (c.toNat / 16) ::
          hexDigit (c.toNat % 16) :: (escapeString s ++ '"' :: rest) from rfl]
      rw [parseStringBody_u _ _ '0' '0' _ _ 0 0 (c.toNat / 16) (c.toNat % 16) rfl rfl
        (hexVal_hexDigit (by omega)) (hexVal_hexDigit (by omega))]
      have hc : (4096 * 0 + 256 * 0 + 16 * (c.toNat / 16) + c.toNat % 16) = c.toNat := by
        omega
      rw [hc, Char.ofNat_toNat, ih]
      simp
    · rw [List.singleton_append, parseStringBody_plain _ _ _ h1 h2 (by omega), ih]
      simp

theorem skipWS_cons {c : Char} (h : isWS c = false) (X : List Char) :
    skipWS (c :: X) = c :: X := by
  simp [skipWS, h]

theorem parseValue_quote (f : Nat) (cs : List Char) :
    parseValue (f + 1) ('"' :: cs) =
      (parseStringBody cs []).map (fun p => (Json.str (String.mk p.1), p.2)) := rfl

theorem parseValue_lbrack (f : Nat) (cs : List Char) :
    parseValue (f + 1) ('[' :: cs) =
      (if (skipWS cs).head? = some ']' then some (Json.arr [], (skipWS cs).tail)
       else (parseItems f (skipWS cs)).map (fun p => (Json.arr p.1, p.2))) := rfl

theorem parseValue_lbrace (f : Nat) (cs : List Char) :
    parseValue (f + 1) ('{' :: cs) =
      (if (skipWS cs).head? = some '}' then some (Json.obj [], (skipWS cs).tail)
       else (parseFields f (skipWS cs)).map (fun p => (Json.obj p.1, p.2))) := rfl

theorem parseValue_minus (f : Nat) (cs : List Char) :
    parseValue (f + 1) ('-' :: cs) =
      (parseNumber ('-' :: cs)).map (fun p => (Json.num p.1, p.2)) := rfl

theorem parseValue_succ (f : Nat) (cs0 : List Char) :
    parseValue (f + 1) cs0 =
      (match skipWS cs0 with
       | [] => none
       | c :: cs =>
         if c = 'n' then
           if cs.take 3 = ['u', 'l', 'l'] then some (.null, cs.drop 3) else none
         else if c = 't' then
           if cs.take 3 = ['r', 'u', 'e'] then some (.bool true, cs.drop 3) else none
         else if c = 'f' then
           if cs.take 4 = ['a', 'l', 's', 'e'] then some (.bool false, cs.drop 4) else none
         else if c = '"' then
           (parseStringBody cs []).map (fun p => (.str (String.mk p.1), p.2))
         else if c = '[' then
           let r := skipWS cs
           if r.head? = some ']' then some (.arr [], r.tail)
           else (parseItems f r).map (fun p => (.arr p.1, p.2))
         else if c = '{' then
           let r := skipWS cs
           if r.head? = some '}' then some (.obj [], r.tail)
           else (parseFields f r).map (fun p => (.obj p.1, p.2))
         else
           (parseNumber (c :: cs)).map (fun p => (.num p.1, p.2))) := rfl

theorem parseValue_digit (f : Nat) (c : Char) (cs : List Char) (h : (digitVal c).isSome) :
    parseValue (f + 1) (c :: cs) =
      (parseNumber (c :: cs)).map (fun p => (Json.num p.1, p.2)) := by
  rw [parseValue_succ, skipWS_cons (digit_not_ws h)]
  split
  next heq => simp at heq
  next c1 cs1 heq =>
    injection heq with hc hcs
    subst hc
    subst hcs
    rw [if_neg (digit_ne h 'n' (by decide)), if_neg (digit_ne h 't' (by decide)),
      if_neg (digit_ne h 'f' (by decide)), if_neg (digit_ne h '"' (by decide)),
      if_neg (digit_ne h '[' (by decide)), if_neg (digit_ne h '{' (by decide))]

theorem parseItems_succ (f : Nat) (cs : List Char) :
    parseItems (f + 1) cs =
      ((parseValue f cs).bind fun p =>
        if (skipWS p.2).head? = some ',' then
          (parseItems f (skipWS p.2).tail).map (fun q => (p.1 :: q.1, q.2))
        else if (skipWS p.2).head? = some ']' then some ([p.1], (skipWS p.2).tail)
        else none) := rfl

theorem parseFields_quote (f : Nat) (cs : List Char) :
    parseFields (f + 1) ('"' :: cs) =
      ((parseStringBody cs []).bind fun pk =>
        if (skipWS pk.2).head? = some ':' then
          (parseValue f (skipWS pk.2).tail).bind fun pv =>
            if (skipWS pv.2).head? = some ',' then
              (parseFields f (skipWS pv.2).tail).map
                (fun q => ((String.mk pk.1, pv.1) :: q.1, q.2))
            else if (skipWS pv.2).head? = some '}' then
              some ([(String.mk pk.1, pv.1)], (skipWS pv.2).tail)
            else none
        else none) := rfl

/-- The first character of any rendering: never whitespace and never a
closing bracket, so the surrounding parser neither skips it nor takes
it for an end-of-array marker. -/
theorem stringify_head (v : Json) :
    ∃ c cs, stringify v = c :: cs ∧ isWS c = false ∧ c ≠ ']' := by
  cases v with
  | null => exact ⟨'n', _, rfl, rfl, by decide⟩
  | bool b =>
    cases b with
    | true => exact ⟨'t', _, rfl, rfl, by decide⟩
    | false => exact ⟨'f', _, rfl, rfl, by decide⟩
  | num n =>
    by_cases hn : n < 0
    · refine ⟨'-', natToDigits n.natAbs, ?_, rfl, by decide⟩
      show intToChars n = _
      rw [intToChars, if_pos hn]
    · obtain ⟨hne, hdig, _, _⟩ := natToDigits_spec n.toNat
      obtain ⟨c, cs, hEq⟩ : ∃ c cs, natToDigits n.toNat = c :: cs := by
        cases hcs : natToDigits n.toNat with
        | nil => exact absurd hcs hne
        | cons c cs => exact ⟨c, cs, rfl⟩
      have hc : (digitVal c).isSome := hdig c (by rw [hEq]; exact List.mem_cons_self ..)
      refine ⟨c, cs, ?_, digit_not_ws hc, digit_ne hc _ (by decide)⟩
      show intToChars n = _
      rw [intToChars, if_neg hn, hEq]
  | str s => exact ⟨'"', _, rfl, rfl, by decide⟩
  | arr xs => exact ⟨'[', _, rfl, rfl, by decide⟩
  | obj xs => exact ⟨'{', _, rfl, rfl, by decide⟩

theorem stringifyItems_cons (v : Json) (vs : List Json) :
    ∃ T, stringifyItems (v :: vs) = stringify v ++ T := by
  cases vs with
  | nil => exact ⟨[], by rw [List.append_nil]; rfl⟩
  | cons w ws => exact ⟨',' :: stringifyItems (w :: ws), rfl⟩

/-- The JSON round trip, by induction on the parser fuel: parsing the
rendering of a value consumes exactly the rendering, for any remainder
at which a numeral parse stops. -/
theorem parse_stringify_all : ∀ f : Nat,
    (∀ (v : Json) (rest : List Char), (stringify v).length < f → numStop rest →
      parseValue f (stringify v ++ rest) = some (v, rest)) ∧
    (∀ (vs : List Json) (rest : List Char), vs ≠ [] →
      (stringifyItems vs).length + 1 < f → numStop rest →
      parseItems f (stringifyItems vs ++ ']' :: rest) = some (vs, rest)) ∧
    (∀ (kvs : List (String × Json)) (rest : List Char), kvs ≠ [] →
      (stringifyFields kvs).length + 1 < f → numStop rest →
      parseFields f (stringifyFields kvs ++ '}' :: rest) = some (kvs, rest)) := by
  intro f
  induction f with
  | zero =>
    refine ⟨fun v rest h _ => absurd h (by omega),
      fun vs rest _ h _ => absurd h (by omega),
      fun kvs rest _ h _ => absurd h (by omega)⟩
  | succ f ih =>
    refine ⟨?_, ?_, ?_⟩
    · intro v rest hlen hstop
      cases v with
      | null => exact rfl
      | bool b => cases b <;> exact rfl
      | num n =>
        by_cases hn : n < 0
        · have hshape : stringify (.num n) ++ rest = '-' :: (natToDigits n.natAbs ++ rest) := by
            show intToChars n ++ rest = _
            rw [intToChars, if_pos hn, List.cons_append]
          rw [hshape, parseValue_minus]
          rw [show '-' :: (natToDigits n.natAbs ++ rest) = intToChars n ++ rest from by
            rw [intToChars, if_pos hn, List.cons_append]]
          rw [parseNumber_intToChars n hstop]
          rfl
        · obtain ⟨hne, hdig, _, _⟩ := natToDigits_spec n.toNat
          obtain ⟨c, cs0, hEq⟩ : ∃ c cs, natToDigits n.toNat = c :: cs := by
            cases hcs : natToDigits n.toNat with
            | nil => exact absurd hcs hne
            | cons c cs => exact ⟨c, cs, rfl⟩
          have hc : (digitVal c).isSome :=
            hdig c (by rw [hEq]; exact List.mem_cons_self ..)
          have hshape : stringify (.num n) ++ rest = c :: (cs0 ++ rest) := by
            show intToChars n ++ rest = _
            rw [intToChars, if_neg hn, hEq, List.cons_append]
          rw [hshape, parseValue_digit f c _ hc]
          rw [show c :: (cs0 ++ rest) = intToChars n ++ rest from by
            rw [intToChars, if_neg hn, hEq, List.cons_append]]
          rw [parseNumber_intToChars n hstop]
          rfl
      | str s =>
        have hshape : stringify (.str s) ++ rest =
            '"' :: (escapeString s.data ++ '"' :: rest) := by
          show quoteString s.data ++ rest = _
          rw [quoteString, List.cons_append, List.append_assoc, List.singleton_append]
        rw [hshape, parseValue_quote, parseStringBody_escape]
        rfl
      | arr xs =>
        cases xs with
        | nil => exact rfl
        | cons v vs =>
          obtain ⟨c, cs0, hvEq, hws, hnb⟩ := stringify_head v
          obtain ⟨T, hT⟩ := stringifyItems_cons v vs
          have hshape : stringify (.arr (v :: vs)) ++ rest =
              '[' :: (stringifyItems (v :: vs) ++ ']' :: rest) := by
            show ('[' :: (stringifyItems (v :: vs) ++ [']'])) ++ rest = _
            rw [List.cons_append, List.append_assoc, List.singleton_append]
          have hcons : stringifyItems (v :: vs) ++ ']' :: rest =
              c :: ((cs0 ++ T) ++ ']' :: rest) := by
            rw [hT, hvEq]
            simp [List.append_assoc]
          have hr : skipWS (stringifyItems (v :: vs) ++ ']' :: rest) =
              stringifyItems (v :: vs) ++ ']' :: rest := by
            rw [hcons, skipWS_cons hws]
          have hhd : (stringifyItems (v :: vs) ++ ']' :: rest).head? = some c := by
            rw [hcons]
            rfl
          have hlen2 : (stringifyItems (v :: vs)).length + 1 < f := by
            have hL : (stringify (.arr (v :: vs))).length =
                (stringifyItems (v :: vs)).length + 2 := by
              show ('[' :: (stringifyItems (v :: vs) ++ [']'])).length = _
              simp
            omega
          rw [hshape, parseValue_lbrack, hr]
          rw [if_neg (by rw [hhd]; intro hh; exact hnb (by injection hh))]
          rw [(ih.2.1) (v :: vs) rest (by simp) hlen2 hstop]
          rfl
      | obj xs =>
        cases xs with
        | nil => exact rfl
        | cons kv kvs =>
          obtain ⟨k, v⟩ := kv
          have hshape : stringify (.obj ((k, v) :: kvs)) ++ rest =
              '{' :: (stringifyFields ((k, v) :: kvs) ++ '}' :: rest) := by
            show ('{' :: (stringifyFields ((k, v) :: kvs) ++ ['}'])) ++ rest = _
            rw [List.cons_append, List.append_assoc, List.singleton_append]
          obtain ⟨T, hT⟩ : ∃ T, stringifyFields ((k, v) :: kvs) = '"' :: T := by
            cases kvs with
            | nil =>
              refine ⟨(escapeString k.data ++ ['"']) ++ ':' :: stringify v, ?_⟩
              show quoteString k.data ++ ':' :: stringify v = _
              rw [quoteString, List.cons_append]
            | cons kv2 kvs2 =>
              obtain ⟨k2, v2⟩ := kv2
              refine ⟨(escapeString k.data ++ ['"']) ++
                ':' :: (stringify v ++ ',' :: stringifyFields ((k2, v2) :: kvs2)), ?_⟩
              rw [show stringifyFields ((k, v) :: (k2, v2) :: kvs2) =
                quoteString k.data ++ ':' :: stringify v ++
                  ',' :: stringifyFields ((k2, v2) :: kvs2) from by
                simp [stringifyFields]]
              rw [quoteString, List.cons_append]
              simp [List.append_assoc]
          have hcons : stringifyFields ((k, v) :: kvs) ++ '}' :: rest =
              '"' :: (T ++ '}' :: rest) := by
            rw [hT, List.cons_append]
          have hr : skipWS (stringifyFields ((k, v) :: kvs) ++ '}' :: rest) =
              stringifyFields ((k, v) :: kvs) ++ '}' :: rest := by
            rw [hcons, skipWS_cons (by decide)]
          have hhd : (stringifyFields ((k, v) :: kvs) ++ '}' :: rest).head? = some '"' := by
            rw [hcons]
            rfl
          have hlen2 : (stringifyFields ((k, v) :: kvs)).length + 1 < f := by
            have hL : (stringify (.obj ((k, v) :: kvs))).length =
                (stringifyFields ((k, v) :: kvs)).length + 2 := by
              show ('{' :: (stringifyFields ((k, v) :: kvs) ++ ['}'])).length = _
              simp
            omega
          rw [hshape, parseValue_lbrace, hr]
          rw [if_neg (by rw [hhd]; intro hh; exact absurd (by injection hh) (by decide))]
          rw [(ih.2.2) ((k, v) :: kvs) rest (by simp) hlen2 hstop]
          rfl
    · intro vs rest hne hlen hstop
      cases vs with
      | nil => exact absurd rfl hne
      | cons v vs1 =>
        cases vs1 with
        | nil =>
          have hlenA : (stringify v).length < f := by
            have : stringifyItems [v] = stringify v := rfl
            rw [this] at hlen
            omega
          show parseItems (f + 1) (stringify v ++ ']' :: rest) = some ([v], rest)
          rw [parseItems_succ, ih.1 v (']' :: rest) hlenA (by rfl)]
          exact rfl
        | cons w vs2 =>
          have hItems : stringifyItems (v :: w :: vs2) =
              stringify v ++ ',' :: stringifyItems (w :: vs2) := rfl
          have hlens : (stringifyItems (v :: w :: vs2)).length =
              (stringify v).length + 1 + (stringifyItems (w :: vs2)).length := by
            rw [hItems]
            simp
            omega
          have hshape : stringifyItems (v :: w :: vs2) ++ ']' :: rest =
              stringify v ++ (',' :: (stringifyItems (w :: vs2) ++ ']' :: rest)) := by
            rw [hItems, List.append_assoc, List.cons_append]
          rw [hshape, parseItems_succ, ih.1 v _ (by omega) (by rfl)]
          show (parseItems f (stringifyItems (w :: vs2) ++ ']' :: rest)).map
              (fun q => (v :: q.1, q.2)) = some (v :: w :: vs2, rest)
          rw [ih.2.1 (w :: vs2) rest (by simp) (by omega) hstop]
          rfl
    · intro kvs rest hne hlen hstop
      cases kvs with
      | nil => exact absurd rfl hne
      | cons kv kvs1 =>
        obtain ⟨k, v⟩ := kv
        cases kvs1 with
        | nil =>
          have hFields : stringifyFields [(k, v)] =
              quoteString k.data ++ ':' :: stringify v := rfl
          have hlenA : (stringify v).length < f := by
            have : (stringifyFields [(k, v)]).length =
                (quoteString k.data).length + 1 + (stringify v).length := by
              rw [hFields]
              simp
              omega
            omega
          have hshape : stringifyFields [(k, v)] ++ '}' :: rest =
              '"' :: (escapeString k.data ++ '"' :: (':' :: (stringify v ++ '}' :: rest))) := by
            rw [hFields, quoteString]
            simp [List.append_assoc]
          rw [hshape, parseFields_quote, parseStringBody_escape]
          show ((parseValue f (stringify v ++ '}' :: rest)).bind fun pv =>
              if (skipWS pv.2).head? = some ',' then
                (parseFields f (skipWS pv.2).tail).map
                  (fun q => ((k, pv.1) :: q.1, q.2))
              else if (skipWS pv.2).head? = some '}' then
                some ([(k, pv.1)], (skipWS pv.2).tail)
              else none) = some ([(k, v)], rest)
          rw [ih.1 v ('}' :: rest) hlenA (by rfl)]
          exact rfl
        | cons kv2 kvs2 =>
          obtain ⟨k2, v2⟩ := kv2
          have hFields : stringifyFields ((k, v) :: (k2, v2) :: kvs2) =
              quoteString k.data ++ ':' :: stringify v ++
                ',' :: stringifyFields ((k2, v2) :: kvs2) := rfl
          have hlens : (stringifyFields ((k, v) :: (k2, v2) :: kvs2)).length =
              (quoteString k.data).length + 1 + (stringify v).length + 1 +
                (stringifyFields ((k2, v2) :: kvs2)).length := by
            rw [hFields]
            simp
            omega
          have hshape : stringifyFields ((k, v) :: (k2, v2) :: kvs2) ++ '}' :: rest =
              '"' :: (escapeString k.data ++ '"' :: (':' :: (stringify v ++
                ',' :: (stringifyFields ((k2, v2) :: kvs2) ++ '}' :: rest)))) := by
            rw [hFields, quoteString]
            simp [List.append_assoc]
          rw [hshape, parseFields_quote, parseStringBody_escape]
          show ((parseValue f (stringify v ++
              ',' :: (stringifyFields ((k2, v2) :: kvs2) ++ '}' :: rest))).bind fun pv =>
              if (skipWS pv.2).head? = some ',' then
                (parseFields f (skipWS pv.2).tail).map
                  (fun q => ((k, pv.1) :: q.1, q.2))
              else if (skipWS pv.2).head? = some '}' then
                some ([(k, pv.1)], (skipWS pv.2).tail)
              else none) = some ((k, v) :: (k2, v2) :: kvs2, rest)
          rw [ih.1 v _ (by omega) (by rfl)]
          show (parseFields f (stringifyFields ((k2, v2) :: kvs2) ++ '}' :: rest)).map
              (fun q => ((k, v) :: q.1, q.2)) = some ((k, v) :: (k2, v2) :: kvs2, rest)
          rw [ih.2.2 ((k2, v2) :: kvs2) rest (by simp) (by omega) hstop]
          rfl

/-- `JSON.parse` is a left inverse of `JSON.stringify` on the modelled
values. -/
theorem decode_stringify (j : Json) : decode (String.mk (stringify j)) = some j := by
  have h := (parse_stringify_all ((stringify j).length + 1)).1 j [] (by omega) rfl
  rw [List.append_nil] at h
  show (match parseValue ((stringify j).length + 1) (stringify j) with
        | some (v, rest) => if skipWS rest = [] then some v else none
        | none => none) = some j
  rw [h]
  rfl

/-! ## Projection facts about the service operations -/

theorem events_emitE (s : WSState) (e : Emit) : (emitE s e).events = s.events ++ [e] := rfl

theorem stopHeartbeat_eq (s : WSState) :
    stopHeartbeat s = { s with heartbeatTimer := false } := by
  unfold stopHeartbeat
  split
  · rfl
  · next h =>
    cases s
    simp_all

theorem events_stopHeartbeat (s : WSState) : (stopHeartbeat s).events = s.events := by
  rw [stopHeartbeat_eq]

theorem events_startHeartbeat (s : WSState) : (startHeartbeat s).events = s.events :=
  events_stopHeartbeat s

theorem events_clearReconnect (s : WSState) : (clearReconnect s).events = s.events := by
  unfold clearReconnect
  split <;> rfl

theorem events_closeAndDropSocket (s : WSState) :
    (closeAndDropSocket s).events = s.events := by
  unfold closeAndDropSocket
  split <;> rfl

theorem events_cleanup (s : WSState) : (cleanup s).events = s.events := by
  unfold cleanup
  rw [events_closeAndDropSocket, events_clearReconnect, events_stopHeartbeat]

theorem events_disconnect (s : WSState) : (disconnect s).events = s.events := by
  unfold disconnect
  rw [events_cleanup]

theorem events_connect (s : WSState) (ok : Bool) : (connect s ok).events = s.events := by
  unfold connect
  split_ifs <;> rfl

theorem events_onopen (s : WSState) :
    (onopen s).events = s.events ++ [Emit.connected] := by
  unfold onopen
  rw [events_startHeartbeat, events_emitE]

theorem events_scheduleReconnect (s : WSState) :
    (scheduleReconnect s).events = s.events := rfl

theorem events_onclose (cfg : WSConfig) (code : Nat) (reason : String) (s : WSState) :
    (onclose cfg code reason s).events = s.events ++ [Emit.disconnected code reason] := by
  unfold onclose
  dsimp only
  split
  · rw [events_scheduleReconnect, events_stopHeartbeat, events_emitE]
  · rw [events_stopHeartbeat, events_emitE]

theorem newEvents_of_append (s s1 : WSState) (L : List Emit)
    (h : s1.events = s.events ++ L) : newEvents s s1 = L := by
  unfold newEvents
  rw [h, List.drop_left]

theorem newEvents_of_eq (s s1 : WSState) (h : s1.events = s.events) :
    newEvents s s1 = [] := by
  unfold newEvents
  rw [h, List.drop_length]

theorem flag_stopHeartbeat (s : WSState) :
    (stopHeartbeat s).isIntentionallyClosed = s.isIntentionallyClosed := by
  rw [stopHeartbeat_eq]

theorem flag_clearReconnect (s : WSState) :
    (clearReconnect s).isIntentionallyClosed = s.isIntentionallyClosed := by
  unfold clearReconnect
  split <;> rfl

theorem flag_closeAndDropSocket (s : WSState) :
    (closeAndDropSocket s).isIntentionallyClosed = s.isIntentionallyClosed := by
  unfold closeAndDropSocket
  split <;> rfl

theorem flag_cleanup (s : WSState) :
    (cleanup s).isIntentionallyClosed = s.isIntentionallyClosed := by
  unfold cleanup
  rw [flag_closeAndDropSocket, flag_clearReconnect, flag_stopHeartbeat]

theorem flag_disconnect (s : WSState) :
    (disconnect s).isIntentionallyClosed = true := by
  unfold disconnect
  rw [flag_cleanup]

theorem flag_connect (s : WSState) (ok : Bool) :
    (connect s ok).isIntentionallyClosed = s.isIntentionallyClosed := by
  unfold connect
  split_ifs <;> rfl

theorem flag_startHeartbeat (s : WSState) :
    (startHeartbeat s).isIntentionallyClosed = s.isIntentionallyClosed :=
  flag_stopHeartbeat s

theorem flag_onopen (s : WSState) :
    (onopen s).isIntentionallyClosed = s.isIntentionallyClosed := by
  unfold onopen
  rw [flag_startHeartbeat]
  rfl

theorem flag_onclose (cfg : WSConfig) (code : Nat) (reason : String) (s : WSState) :
    (onclose cfg code reason s).isIntentionallyClosed = s.isIntentionallyClosed := by
  unfold onclose
  dsimp only
  split
  · rw [show ∀ x : WSState, (scheduleReconnect x).isIntentionallyClosed =
      x.isIntentionallyClosed from fun x => rfl, flag_stopHeartbeat]
    rfl
  · rw [flag_stopHeartbeat]
    rfl

theorem flag_onmessage (s : WSState) (d : String) :
    (onmessage s d).isIntentionallyClosed = s.isIntentionallyClosed := by
  unfold onmessage
  split
  · rfl
  · dsimp only
    split
    · rfl
    · split <;> rfl

theorem hb_onclose (cfg : WSConfig) (code : Nat) (reason : String) (s : WSState) :
    (onclose cfg code reason s).heartbeatTimer = false := by
  unfold onclose
  dsimp only
  split
  · rw [show ∀ x : WSState, (scheduleReconnect x).heartbeatTimer =
      x.heartbeatTimer from fun x => rfl, stopHeartbeat_eq]
  · rw [stopHeartbeat_eq]

theorem send_notOpen (s : WSState) (m : WebSocketMessage)
    (h : wsReadyState s ≠ some WS_OPEN) :
    send s m = emitE s (.error .notConnected) := by
  unfold send
  rw [if_pos h]

theorem send_open (s : WSState) (m : WebSocketMessage)
    (h : wsReadyState s = some WS_OPEN) :
    send s m = emitE s (.messageSent m) := by
  unfold send
  rw [if_neg (not_not_intro h)]

theorem isConnected_iff (s : WSState) :
    isConnected s = true ↔ wsReadyState s = some WS_OPEN := by
  unfold isConnected
  exact beq_iff_eq ..

theorem events_onmessage (s : WSState) (d : String) :
    ∃ L : List Emit, (onmessage s d).events = s.events ++ L ∧
      (∀ m : WebSocketMessage, Emit.messageSent m ∉ L) := by
  unfold onmessage
  split
  · exact ⟨[.error .parseError], rfl, fun m hm => by simp at hm⟩
  · next j hdec =>
    dsimp only
    split
    · refine ⟨[.message j, .error .typeError], ?_, fun m hm => by simp at hm⟩
      rw [events_emitE, events_emitE, List.append_assoc]
      rfl
    · next t hT =>
      split
      · refine ⟨[.message j, .error .typeError], ?_, fun m hm => by simp at hm⟩
        rw [events_emitE, events_emitE, List.append_assoc]
        rfl
      · next p hP =>
        refine ⟨[.message j, .typedMessage ("message:" ++ templateStr t) p], ?_,
          fun m hm => by simp at hm⟩
        rw [events_emitE, events_emitE, List.append_assoc]
        rfl

/-- Decoding and dispatching a well-formed frame: `onmessage` emits the
generic `message` event with the parsed frame, then the type-scoped
event with the payload. -/
theorem onmessage_encode (s : WSState) (T : String) (p : Json) (ts : Int) :
    onmessage s (encodeMessage { type := T, payload := p, timestamp := ts }) =
      emitE (emitE s (.message (messageJson { type := T, payload := p, timestamp := ts })))
        (.typedMessage ("message:" ++ T)
          (some p)) := by
  unfold onmessage
  rw [show decode (encodeMessage { type := T, payload := p, timestamp := ts }) =
    some (messageJson { type := T, payload := p, timestamp := ts }) from decode_stringify _]
  rfl

/-- When the attempt budget is exhausted, `onclose` only emits
`disconnected` and stops the heartbeat: no reconnect is scheduled and no
`error` is emitted. -/
theorem onclose_exhausted (cfg : WSConfig) (code : Nat) (reason : String) (s : WSState)
    (hmax : cfg.maxReconnectAttempts ≤ s.reconnectAttempts) :
    onclose cfg code reason s = stopHeartbeat (emitE s (.disconnected code reason)) := by
  unfold onclose
  dsimp only
  rw [if_neg]
  intro hcond
  have h2 := hcond.2
  rw [show (stopHeartbeat (emitE s (.disconnected code reason))).reconnectAttempts =
    s.reconnectAttempts from by rw [stopHeartbeat_eq]; rfl] at h2
  omega

theorem stored_clearReconnect (s : WSState) :
    (clearReconnect s).reconnectStored = false := by
  unfold clearReconnect
  split
  · rfl
  · next h => simpa using h

theorem stored_closeAndDropSocket (s : WSState) :
    (closeAndDropSocket s).reconnectStored = s.reconnectStored := by
  unfold closeAndDropSocket
  split <;> rfl

theorem stored_cleanup (s : WSState) : (cleanup s).reconnectStored = false := by
  unfold cleanup
  rw [stored_closeAndDropSocket, stored_clearReconnect]

theorem stored_disconnect (s : WSState) : (disconnect s).reconnectStored = false :=
  stored_cleanup _

theorem ws_cleanup (s : WSState) : (cleanup s).ws = none := by
  unfold cleanup closeAndDropSocket
  split
  · rfl
  · next heq => exact heq

theorem ws_disconnect (s : WSState) : (disconnect s).ws = none := ws_cleanup _

theorem hb_clearReconnect (s : WSState) :
    (clearReconnect s).heartbeatTimer = s.heartbeatTimer := by
  unfold clearReconnect
  split <;> rfl

theorem hb_closeAndDropSocket (s : WSState) :
    (closeAndDropSocket s).heartbeatTimer = s.heartbeatTimer := by
  unfold closeAndDropSocket
  split <;> rfl

theorem hb_cleanup (s : WSState) : (cleanup s).heartbeatTimer = false := by
  unfold cleanup
  rw [hb_closeAndDropSocket, hb_clearReconnect, stopHeartbeat_eq]

theorem hb_disconnect (s : WSState) : (disconnect s).heartbeatTimer = false :=
  hb_cleanup _

/-- A state that `disconnect` cannot change any further is a fixed
point: the stopped service is inert under repeated `disconnect`. -/
theorem disconnect_fixed (s : WSState) (h1 : s.ws = none) (h2 : s.heartbeatTimer = false)
    (h3 : s.reconnectStored = false) (h4 : s.isIntentionallyClosed = true) :
    disconnect s = s := by
  cases s
  simp only at h1 h2 h3 h4
  subst h1
  subst h2
  subst h3
  subst h4
  rfl

theorem flag_send (s : WSState) (m : WebSocketMessage) :
    (send s m).isIntentionallyClosed = s.isIntentionallyClosed := by
  unfold send
  split <;> rfl

theorem sendTyped_eq (s : WSState) (t : String) (p : Json) (now : Int) :
    sendTyped s t p now = send s { type := t, payload := p, timestamp := now } := rfl

theorem flag_sendTyped (s : WSState) (t : String) (p : Json) (now : Int) :
    (sendTyped s t p now).isIntentionallyClosed = s.isIntentionallyClosed :=
  flag_send s _

/-! ## The claims -/

/-- C8: the codec round-trips — `decode (encode type payload)` succeeds
and reproduces the `type` and `payload` fields unchanged — and an
unparseable inbound frame, necessarily received while the socket it
arrived on is `Open`, makes `onmessage` emit exactly one `error` event
and change nothing else (the socket list, hence the open session, is
untouched: the resulting state is the old one plus one `error` emit). -/
theorem C8_roundtrip_and_decode_error :
    (∀ (t : String) (p : Json) (ts : Int),
      decode (encodeMessage { type := t, payload := p, timestamp := ts }) =
        some (messageJson { type := t, payload := p, timestamp := ts }) ∧
      propAccess (messageJson { type := t, payload := p, timestamp := ts }) "type" =
        some (some (.str t)) ∧
      propAccess (messageJson { type := t, payload := p, timestamp := ts }) "payload" =
        some (some p)) ∧
    (∀ (cfg : WSConfig) (id : Nat) (data : String) (s s' : WSState),
      decode data = none →
      step cfg (.socketMessage id data) s = some s' →
      s.sockets.getD id WS_CLOSED = WS_OPEN ∧
      s' = emitE s (.error .parseError)) := by
  constructor
  · intro t p ts
    exact ⟨decode_stringify _, rfl, rfl⟩
  · intro cfg id data s s' hdec hstep
    simp only [step] at hstep
    split at hstep
    · next hopen =>
      refine ⟨hopen, ?_⟩
      injection hstep with h1
      rw [← h1]
      unfold onmessage
      rw [hdec]
    · exact absurd hstep (by simp)

/-- C8 witness: the round trip at a concrete frame, and the handler
behaviour at the concrete unparseable input `"\x7b"` arriving on the open
socket of `openState`. -/
theorem C8_witness :
    (decode (encodeMessage { type := "statusUpdate", payload := .num 5, timestamp := 3 }) =
      some (messageJson { type := "statusUpdate", payload := .num 5, timestamp := 3 })) ∧
    (openState.sockets.getD 0 WS_CLOSED = WS_OPEN ∧
      onmessage openState "\x7b" = emitE openState (.error .parseError)) := by
  refine ⟨(C8_roundtrip_and_decode_error.1 "statusUpdate" (.num 5) 3).1, ?_⟩
  have h := C8_roundtrip_and_decode_error.2 cfgD 0 "\x7b" openState
    (onmessage openState "\x7b") rfl rfl
  exact h

/-- C9: a single inbound frame of type `T`, decoded while the socket is
open, with one subscriber on the generic `message` channel and one on
`message:T`: the generic handler is invoked first, the type-scoped
handler second, each exactly once. -/
theorem C9_dispatch_order (cfg : WSConfig) (id a b : Nat) (T : String) (p : Json)
    (ts : Int) (s s' : WSState)
    (hstep : step cfg (.socketMessage id
      (encodeMessage { type := T, payload := p, timestamp := ts })) s = some s') :
    invocations [("message", a), ("message:" ++ T, b)] (newEvents s s') =
      [(a, .message (messageJson { type := T, payload := p, timestamp := ts })),
       (b, .typedMessage ("message:" ++ T) (some p))] := by
  have hne : ("message:" ++ T) ≠ "message" := by
    intro he
    have hl := congrArg String.length he
    rw [String.length_append] at hl
    rw [show ("message:" : String).length = 8 from rfl,
      show ("message" : String).length = 7 from rfl] at hl
    omega
  simp only [step] at hstep
  split at hstep
  · injection hstep with h1
    have hE : s'.events = s.events ++
        [Emit.message (messageJson { type := T, payload := p, timestamp := ts }),
         Emit.typedMessage ("message:" ++ T) (some p)] := by
      rw [← h1, onmessage_encode, events_emitE, events_emitE, List.append_assoc]
      rfl
    rw [newEvents_of_append _ _ _ hE]
    simp [invocations, handlersFor, Emit.name, hne, Ne.symm hne]
  · exact absurd hstep (by simp)

/-- C9 witness: scenario C — subscriber 0 on generic `message`,
subscriber 1 on `message:statusUpdate`, one `statusUpdate` frame arrives
on the open socket: handler 0 fires before handler 1, each once. -/
theorem C9_witness :
    invocations [("message", 0), ("message:statusUpdate", 1)]
      (newEvents openState
        (onmessage openState
          (encodeMessage { type := "statusUpdate", payload := .num 5, timestamp := 3 }))) =
      [(0, .message (messageJson { type := "statusUpdate", payload := .num 5, timestamp := 3 })),
       (1, .typedMessage "message:statusUpdate" (some (.num 5)))] := by
  have h := C9_dispatch_order cfgD 0 0 1 "statusUpdate" (.num 5) 3 openState
    (onmessage openState
      (encodeMessage { type := "statusUpdate", payload := .num 5, timestamp := 3 })) rfl
  exact h

/-- C10: the module singleton — a second `initializeWebSocket` call
returns the instance built by the first call, still configured from the
first configuration (the second is silently ignored), and
`getWebSocketService` before any initialisation is an error, not an
instance. -/
theorem C10_singleton (c1 c2 : WebSocketConfigIn) :
    (initializeWebSocket c1 none).1 = mkService c1 ∧
    (initializeWebSocket c2 (initializeWebSocket c1 none).2).1 = mkService c1 ∧
    (initializeWebSocket c2 (initializeWebSocket c1 none).2).2 = some (mkService c1) ∧
    (initializeWebSocket c2 (initializeWebSocket c1 none).2).1.config = applyDefaults c1 ∧
    getWebSocketService none = Except.error "WebSocket service not initialized" :=
  ⟨rfl, rfl, rfl, rfl, rfl⟩

/-- C1 counterexample: with `maxReconnectAttempts = 1`, the first socket
fails, the reconnect fires, and the replacement fails too.  The counter
has reached the budget without a successful open and the manager is
inert (no reconnect pending), yet **zero** `error` events were emitted —
the claim demands exactly one terminal `error`. -/
theorem C1_counterexample :
    runActions cfg1 [.connect true, .socketClosed 0 1006 "", .reconnectFired true,
      .socketClosed 1 1006 ""] initState = some exhaustedStateAfter ∧
    exhaustedStateAfter.reconnectAttempts = cfg1.maxReconnectAttempts ∧
    exhaustedStateAfter.reconnectPending = 0 ∧
    exhaustedStateAfter.isIntentionallyClosed = false ∧
    countEvents isErrorEvent exhaustedStateAfter.events = 0 :=
  ⟨rfl, rfl, rfl, rfl, rfl⟩

/-- C1 amended: when the attempt counter has reached `maxAttempts` and a
socket closes, the manager stops silently — the close emits exactly the
`disconnected` event and **no** `error` event, schedules nothing
(`reconnectPending` unchanged), and any later `send` while not open
fails by emitting an `error` event without transmitting. -/
theorem C1_amended (cfg : WSConfig) (id code : Nat) (reason : String) (s s' : WSState)
    (_hflag : s.isIntentionallyClosed = false)
    (hmax : cfg.maxReconnectAttempts ≤ s.reconnectAttempts)
    (hstep : step cfg (.socketClosed id code reason) s = some s') :
    newEvents s s' = [.disconnected code reason] ∧
    countEvents isErrorEvent (newEvents s s') = 0 ∧
    s'.reconnectPending = s.reconnectPending ∧
    s'.reconnectAttempts = s.reconnectAttempts ∧
    (∀ m : WebSocketMessage, wsReadyState s' ≠ some WS_OPEN →
      send s' m = emitE s' (.error .notConnected)) := by
  simp only [step] at hstep
  split at hstep
  · injection hstep with h1
    have h2 : s' = stopHeartbeat (emitE { s with sockets := s.sockets.set id WS_CLOSED }
        (.disconnected code reason)) := by
      rw [← h1, onclose_exhausted]
      exact hmax
    have hEv : s'.events = s.events ++ [Emit.disconnected code reason] := by
      rw [h2, events_stopHeartbeat, events_emitE]
    have hNE := newEvents_of_append _ _ _ hEv
    refine ⟨hNE, ?_, ?_, ?_, fun m h => send_notOpen s' m h⟩
    · rw [hNE]
      rfl
    · rw [h2, stopHeartbeat_eq]
      rfl
    · rw [h2, stopHeartbeat_eq]
      rfl
  · exact absurd hstep (by simp)

/-- C1 witness: the amended claim applied to the concrete exhausted
state under `cfg1`. -/
theorem C1_witness :
    newEvents exhaustedState exhaustedStateAfter = [.disconnected 1006 ""] ∧
    exhaustedStateAfter.reconnectPending = exhaustedState.reconnectPending ∧
    send exhaustedStateAfter msg0 = emitE exhaustedStateAfter (.error .notConnected) := by
  have h := C1_amended cfg1 1 1006 "" exhaustedState exhaustedStateAfter rfl
    (by decide) rfl
  exact ⟨h.1, h.2.2.1, h.2.2.2.2 msg0 (by decide)⟩

/-- C2 counterexample: calling `connect()` while the first socket is
still `CONNECTING` passes the guard (which only checks `OPEN`) and
constructs a second socket — two live connections at once. -/
theorem C2_counterexample :
    (runActions cfgD [.connect true, .connect true] initState).map
      (fun s => (s.sockets, liveCount s)) =
      some ([WS_CONNECTING, WS_CONNECTING], 2) := rfl

/-- C2 amended: the guard does hold for open sessions — calling
`connect()` while the current socket is `OPEN` is a no-op and creates
no second connection; it is only the `Connecting` half of the claim
that fails. -/
theorem C2_amended (s : WSState) (ok : Bool) (h : wsReadyState s = some WS_OPEN) :
    connect s ok = s := by
  unfold connect
  rw [if_pos]
  rw [h]
  rfl

/-- C2 witness: `connect()` on the open fixture changes nothing. -/
theorem C2_witness : connect openState true = openState :=
  C2_amended openState true rfl

/-- C3 counterexample: `send` while no session is open returns `void`
and reports the failure **only** as an emitted `error` event — the
entire effect of the call is one appended event, and nothing is
transmitted.  The claim requires a caller-visible synchronous result
that is "not merely an emitted event", which the code does not give. -/
theorem C3_counterexample :
    send initState msg0 = emitE initState (.error .notConnected) ∧
    countEvents isSentEvent (send initState msg0).events = 0 :=
  ⟨rfl, rfl⟩

/-- C3 amended: for every state that is not open, `send` returns without
transmitting, emits a single `error` event (`'WebSocket is not
connected'`), and retries nothing — the resulting state is the old one
plus that event, so no timer or socket was touched. -/
theorem C3_amended (s : WSState) (m : WebSocketMessage)
    (h : wsReadyState s ≠ some WS_OPEN) :
    send s m = emitE s (.error .notConnected) :=
  send_notOpen s m h

/-- C3 witness: the amended claim at the fresh service and a concrete
frame. -/
theorem C3_witness :
    send { initState with ws := none } msg0 =
      emitE { initState with ws := none } (.error .notConnected) :=
  C3_amended { initState with ws := none } msg0 (by decide)

/-- C4 counterexample: `stop()` latches the flag, but a direct
`connect()` call afterwards still constructs a fresh socket — the claim
that no new session is ever created afterwards *by any operation* is
false (`connect` never consults the flag). -/
theorem C4_counterexample :
    (runActions cfgD [.disconnect, .connect true] initState).map
      (fun s => (s.sockets, s.isIntentionallyClosed)) =
      some ([WS_CONNECTING], true) := rfl

/-- C4 amended: `stop()` latches the flag permanently (no step resets
it) and nulls the stored reconnect handle; and the *reconnect path*
respects the latch — a reconnect timeout that fires after `stop()`
creates no socket and emits nothing.  Only a direct `connect()` call
escapes the latch. -/
theorem C4_amended :
    (∀ s : WSState, (disconnect s).isIntentionallyClosed = true ∧
      (disconnect s).reconnectStored = false) ∧
    (∀ (cfg : WSConfig) (a : Action) (s s' : WSState),
      s.isIntentionallyClosed = true → step cfg a s = some s' →
      s'.isIntentionallyClosed = true) ∧
    (∀ (cfg : WSConfig) (ok : Bool) (s s' : WSState),
      s.isIntentionallyClosed = true → step cfg (.reconnectFired ok) s = some s' →
      s'.sockets = s.sockets ∧ s'.events = s.events ∧ s'.ws = s.ws) := by
  refine ⟨fun s => ⟨flag_disconnect s, stored_disconnect s⟩, ?_, ?_⟩
  · intro cfg a s s' hf hstep
    cases a with
    | connect ok =>
      simp only [step] at hstep
      injection hstep with h1
      rw [← h1, flag_connect]
      exact hf
    | disconnect =>
      simp only [step] at hstep
      injection hstep with h1
      rw [← h1, flag_disconnect]
    | send m =>
      simp only [step] at hstep
      injection hstep with h1
      rw [← h1, flag_send]
      exact hf
    | sendTyped t p now =>
      simp only [step] at hstep
      injection hstep with h1
      rw [← h1, flag_sendTyped]
      exact hf
    | socketOpened id =>
      simp only [step] at hstep
      split at hstep
      · injection hstep with h1
        rw [← h1, flag_onopen]
        exact hf
      · exact absurd hstep (by simp)
    | socketClosed id code reason =>
      simp only [step] at hstep
      split at hstep
      · injection hstep with h1
        rw [← h1, flag_onclose]
        exact hf
      · exact absurd hstep (by simp)
    | socketMessage id data =>
      simp only [step] at hstep
      split at hstep
      · injection hstep with h1
        rw [← h1, flag_onmessage]
        exact hf
      · exact absurd hstep (by simp)
    | socketError id =>
      simp only [step] at hstep
      split at hstep
      · injection hstep with h1
        rw [← h1]
        exact hf
      · exact absurd hstep (by simp)
    | reconnectFired ok =>
      simp only [step] at hstep
      split at hstep
      · injection hstep with h1
        rw [← h1]
        exact hf
      · exact absurd hstep (by simp)
    | heartbeatTick now =>
      simp only [step] at hstep
      split at hstep
      · injection hstep with h1
        rw [← h1]
        split
        · rw [flag_sendTyped]
          exact hf
        · exact hf
      · exact absurd hstep (by simp)
  · intro cfg ok s s' hf hstep
    simp only [step] at hstep
    split at hstep
    · injection hstep with h1
      rw [← h1]
      exact ⟨rfl, rfl, rfl⟩
    · exact absurd hstep (by simp)

/-- C4 witness: the amended claim at the concrete stopped state which
still has a leaked pending reconnect timeout. -/
theorem C4_witness :
    ((disconnect openState).isIntentionallyClosed = true ∧
      (disconnect openState).reconnectStored = false) ∧
    (emitE stoppedPendingState (.error .transportError)).isIntentionallyClosed = true ∧
    (({ stoppedPendingState with reconnectPending := 0 } : WSState).sockets =
        stoppedPendingState.sockets ∧
      ({ stoppedPendingState with reconnectPending := 0 } : WSState).events =
        stoppedPendingState.events ∧
      ({ stoppedPendingState with reconnectPending := 0 } : WSState).ws =
        stoppedPendingState.ws) := by
  refine ⟨C4_amended.1 openState, ?_, ?_⟩
  · exact C4_amended.2.1 cfgD (.socketError 0) stoppedPendingState
      (emitE stoppedPendingState (.error .transportError)) rfl rfl
  · exact C4_amended.2.2 cfgD true stoppedPendingState
      ({ stoppedPendingState with reconnectPending := 0 }) rfl rfl

/-- C5 counterexample: stopping a live session calls `ws.close()` with
**no** arguments — the recorded close call carries no reason, so the
session is not closed with reason `"client shutdown"`. -/
theorem C5_counterexample :
    (runActions cfgD [.connect true, .socketOpened 0, .disconnect] initState).map
      (fun s => s.closeCalls) = some [(0, none)] := rfl

/-- C5 amended: `stop()` is idempotent — `disconnect ∘ disconnect =
disconnect` exactly — and stopping a live session twice closes the
socket once (one bare `close()` call, no reason argument) and produces
exactly one `disconnected` event. -/
theorem C5_amended :
    (∀ s : WSState, disconnect (disconnect s) = disconnect s) ∧
    ((runActions cfgD [.connect true, .socketOpened 0, .disconnect, .disconnect,
        .socketClosed 0 1005 ""] initState).map
      (fun s => (countEvents isDisconnectedEvent s.events, s.closeCalls)) =
      some (1, [(0, none)])) := by
  refine ⟨fun s => ?_, rfl⟩
  exact disconnect_fixed (disconnect s) (ws_disconnect s) (hb_disconnect s)
    (stored_disconnect s) (flag_disconnect s)

/-- C6 counterexample: after `connect()` is called twice and the
orphaned first socket opens, its `onopen` closure has started the
heartbeat while the manager's current session (`getState`) is still
`CONNECTING` — the heartbeat timer exists while the session is not
open. -/
theorem C6_counterexample :
    runActions cfgD [.connect true, .connect true, .socketOpened 0] initState =
      some orphanState ∧
    orphanState.heartbeatTimer = true ∧
    getState orphanState = WS_CONNECTING ∧
    getState orphanState ≠ WS_OPEN :=
  ⟨rfl, rfl, rfl, by decide⟩

/-- C6 amended: no frame — heartbeat or otherwise — is ever written to
the transport unless the current socket is `OPEN` at that very step
(both the heartbeat tick and `send` guard on it), and every close
transition cancels the heartbeat timer before it completes, hence
before any reconnection logic runs.  What fails in the original claim
is only the timer-existence-implies-open conjunct (see the
counterexample). -/
theorem C6_amended :
    (∀ (cfg : WSConfig) (a : Action) (s s' : WSState) (m : WebSocketMessage),
      step cfg a s = some s' → Emit.messageSent m ∈ newEvents s s' →
      wsReadyState s = some WS_OPEN) ∧
    (∀ (cfg : WSConfig) (id code : Nat) (reason : String) (s s' : WSState),
      step cfg (.socketClosed id code reason) s = some s' →
      s'.heartbeatTimer = false) := by
  constructor
  · intro cfg a s s' m hstep hmem
    cases a with
    | connect ok =>
      simp only [step] at hstep
      injection hstep with h1
      rw [newEvents_of_eq s s' (by rw [← h1, events_connect])] at hmem
      simp at hmem
    | disconnect =>
      simp only [step] at hstep
      injection hstep with h1
      rw [newEvents_of_eq s s' (by rw [← h1, events_disconnect])] at hmem
      simp at hmem
    | send m2 =>
      simp only [step] at hstep
      injection hstep with h1
      by_cases hw : wsReadyState s = some WS_OPEN
      · exact hw
      · rw [newEvents_of_append s s' [Emit.error .notConnected]
          (by rw [← h1, send_notOpen s m2 hw, events_emitE])] at hmem
        simp at hmem
    | sendTyped t p now =>
      simp only [step] at hstep
      injection hstep with h1
      by_cases hw : wsReadyState s = some WS_OPEN
      · exact hw
      · rw [newEvents_of_append s s' [Emit.error .notConnected]
          (by rw [← h1, sendTyped_eq, send_notOpen _ _ hw, events_emitE])] at hmem
        simp at hmem
    | socketOpened id =>
      simp only [step] at hstep
      split at hstep
      · injection hstep with h1
        rw [newEvents_of_append s s' [Emit.connected]
          (by rw [← h1, events_onopen])] at hmem
        simp at hmem
      · exact absurd hstep (by simp)
    | socketClosed id code reason =>
      simp only [step] at hstep
      split at hstep
      · injection hstep with h1
        rw [newEvents_of_append s s' [Emit.disconnected code reason]
          (by rw [← h1, events_onclose])] at hmem
        simp at hmem
      · exact absurd hstep (by simp)
    | socketMessage id data =>
      simp only [step] at hstep
      split at hstep
      · injection hstep with h1
        obtain ⟨L, hL, hno⟩ := events_onmessage s data
        rw [newEvents_of_append s s' L (by rw [← h1, hL])] at hmem
        exact absurd hmem (hno m)
      · exact absurd hstep (by simp)
    | socketError id =>
      simp only [step] at hstep
      split at hstep
      · injection hstep with h1
        rw [newEvents_of_append s s' [Emit.error .transportError]
          (by rw [← h1]; rfl)] at hmem
        simp at hmem
      · exact absurd hstep (by simp)
    | reconnectFired ok =>
      simp only [step] at hstep
      split at hstep
      · injection hstep with h1
        have hEv : s'.events = s.events := by
          rw [← h1]
          split
          · rfl
          · rw [events_connect]
        rw [newEvents_of_eq s s' hEv] at hmem
        simp at hmem
      · exact absurd hstep (by simp)
    | heartbeatTick now =>
      simp only [step] at hstep
      split at hstep
      · injection hstep with h1
        by_cases hc : isConnected s = true
        · exact (isConnected_iff s).mp hc
        · have hEv : s'.events = s.events := by
            rw [← h1, if_neg (by simp [hc])]
          rw [newEvents_of_eq s s' hEv] at hmem
          simp at hmem
      · exact absurd hstep (by simp)
  · intro cfg id code reason s s' hstep
    simp only [step] at hstep
    split at hstep
    · injection hstep with h1
      rw [← h1, hb_onclose]
    · exact absurd hstep (by simp)

/-- C6 witness: a heartbeat frame written from the open fixture implies
openness, and the close transition of that socket leaves the heartbeat
timer cancelled. -/
theorem C6_witness :
    wsReadyState openState = some WS_OPEN ∧
    (onclose cfgD 1006 "" { openState with sockets := [WS_CLOSED] }).heartbeatTimer =
      false := by
  constructor
  · exact C6_amended.1 cfgD (.sendTyped "heartbeat" .null 0) openState
      (sendTyped openState "heartbeat" .null 0)
      { type := "heartbeat", payload := .null, timestamp := 0 } rfl
      (by rw [show newEvents openState (sendTyped openState "heartbeat" Json.null 0) =
        [Emit.messageSent { type := "heartbeat", payload := .null, timestamp := 0 }]
          from rfl]
          exact List.mem_singleton.mpr rfl)
  · exact C6_amended.2 cfgD 0 1006 "" openState
      (onclose cfgD 1006 "" { openState with sockets := [WS_CLOSED] }) rfl

/-- C7 counterexample: a heartbeat tick that fires while the current
session is not open (the orphan fixture) does **not** cancel the
repeating timer: the state is completely unchanged — the timer is still
installed, further ticks remain enabled, and nothing was sent. -/
theorem C7_counterexample :
    step cfgD (.heartbeatTick 0) orphanState = some orphanState ∧
    orphanState.heartbeatTimer = true ∧
    isConnected orphanState = false ∧
    countEvents isSentEvent orphanState.events = 0 :=
  ⟨rfl, rfl, rfl, rfl⟩

/-- C7 amended: a heartbeat tick while the session is not open skips the
send silently and leaves everything — including the repeating timer —
exactly as it was; the timer is cancelled only by a close transition or
by `stop()`, never by the tick itself. -/
theorem C7_amended (cfg : WSConfig) (now : Int) (s : WSState)
    (h1 : s.heartbeatTimer = true) (h2 : isConnected s = false) :
    step cfg (.heartbeatTick now) s = some s := by
  simp only [step]
  rw [if_pos h1, if_neg (by simp [h2])]

/-- C7 witness: the amended claim at the orphan fixture. -/
theorem C7_witness : step cfgD (.heartbeatTick 5) orphanState = some orphanState :=
  C7_amended cfgD 5 orphanState rfl rfl

end WS
